/-
Verification of the smolagents-tools adapter core against its specification.

The definitions below are a shallow embedding of the Python sources:
  * `SmolToolResult`, `SmolToolResult.to_dict`, `SmolTool._execute_with_kwargs`
    and the synthesized `forward` signature, from `smolagents_tools/base.py`;
  * `FileEditorTool` (its `execute` and the `_view_file` / `_create_file` /
    `_str_replace` / `_undo_edit` helpers), from
    `smolagents_tools/utils/file_editor.py`, with the filesystem made an
    explicit association list from absolute path to file content;
  * `PlanningTool` (its `execute` and helpers), from
    `smolagents_tools/utils/planning.py`, with the in-memory plan table made
    an explicit state record and `datetime.now()` threaded as a string
    parameter `now`.

Python strings are `String`, Python `None`-able parameters are `Option`,
raised exceptions are an `Except`-style constructor, and dictionaries are
association lists in insertion order.
-/

import Mathlib

set_option maxRecDepth 4000

namespace SmolagentsTools

/-! ## Python string helpers (CPython semantics of the operations used) -/

/-- Python `pat in s` (substring containment) on character lists. -/
def listContains (s pat : List Char) : Bool :=
  match s with
  | [] => pat.isEmpty
  | _ :: rest => pat.isPrefixOf s || listContains rest pat

/-- Python `s.count(pat)` for a nonempty `pat`: number of non-overlapping
occurrences scanning left to right. The first argument is structural-recursion
fuel; one unit is spent per character position examined, so `s.length`
suffices (after a match at least `pat.length ≥ 1` characters are consumed). -/
def countOccsAux : Nat → List Char → List Char → Nat
  | 0, _, _ => 0
  | _ + 1, [], _ => 0
  | fuel + 1, c :: rest, pat =>
    if pat.isPrefixOf (c :: rest) then
      1 + countOccsAux fuel ((c :: rest).drop pat.length) pat
    else countOccsAux fuel rest pat

/-- Python `s.count(pat)`; `s.count("")` is `len(s) + 1`. -/
def pyCount (s pat : String) : Nat :=
  if pat.length = 0 then s.length + 1
  else countOccsAux s.data.length s.data pat.data

/-- Python `pat in s`. -/
def pyIn (pat s : String) : Bool := listContains s.data pat.data

/-- Python `s.replace(old, new)` for nonempty `old`: replace every
non-overlapping occurrence, scanning left to right (fueled as in
`countOccsAux`). -/
def replaceAux : Nat → List Char → List Char → List Char → List Char
  | 0, s, _, _ => s
  | _ + 1, [], _, _ => []
  | fuel + 1, c :: rest, pat, repl =>
    if pat.isPrefixOf (c :: rest) then
      repl ++ replaceAux fuel ((c :: rest).drop pat.length) pat repl
    else c :: replaceAux fuel rest pat repl

/-- Python `s.replace(old, new)` (the code only calls it when `old` occurs
exactly once, but the definition follows Python for any nonempty `old`;
`old = ""` does not arise because `count("") >= 2` is rejected earlier). -/
def pyReplace (s pat repl : String) : String :=
  if pat.length = 0 then s
  else ⟨replaceAux s.data.length s.data pat.data repl.data⟩

/-- Python `f.readlines()`: split the content into lines, each keeping its
trailing newline; a final fragment without a newline is its own line. -/
def readlinesAux (s : List Char) (acc : List Char) : List (List Char) :=
  match s with
  | [] => if acc.isEmpty then [] else [acc.reverse]
  | c :: rest =>
    if c = '\n' then (acc.reverse ++ ['\n']) :: readlinesAux rest []
    else readlinesAux rest (c :: acc)

def readlines (content : String) : List String :=
  (readlinesAux content.data []).map fun l => ⟨l⟩

/-- Python `f"{i:6}"`: decimal rendering of `i` left-padded with spaces to
width 6. -/
def padLeft6 (i : Nat) : String :=
  let s := toString i
  ⟨List.replicate (6 - s.length) ' ' ++ s.data⟩

/-- Python `s.strip('[]')`: remove leading and trailing characters drawn from
`{'[', ']'}`. -/
def stripBrackets (s : String) : String :=
  let isBr := fun c => c = '[' || c = ']'
  ⟨((s.data.dropWhile isBr).reverse.dropWhile isBr).reverse⟩

/-- Python `int(s)`: optional surrounding whitespace, optional sign, then a
nonempty run of decimal digits (the underscore digit-grouping extension is
not used by any input considered here). `none` models the raised
`ValueError`. -/
def pyParseInt (s : String) : Option Int :=
  let t := (s.data.dropWhile (· = ' ')).reverse.dropWhile (· = ' ') |>.reverse
  let (neg, digits) :=
    match t with
    | '-' :: rest => (true, rest)
    | '+' :: rest => (false, rest)
    | _ => (false, t)
  if digits.isEmpty then none
  else if digits.all Char.isDigit then
    let n := digits.foldl (fun acc c => acc * 10 + (c.toNat - '0'.toNat)) 0
    some (if neg then -(n : Int) else (n : Int))
  else none

/-- Python `s.split(sep)` for a single-character separator (`"".split(sep)`
is `[""]`, a trailing separator yields a trailing empty piece). -/
def splitOnCharAux (sep : Char) (s acc : List Char) : List (List Char) :=
  match s with
  | [] => [acc.reverse]
  | c :: rest =>
    if c = sep then acc.reverse :: splitOnCharAux sep rest []
    else splitOnCharAux sep rest (c :: acc)

def pySplitOnChar (sep : Char) (s : String) : List String :=
  (splitOnCharAux sep s.data []).map fun l => ⟨l⟩

/-- Python `s.lower()` restricted to ASCII (every string the tools build is
ASCII). -/
def pyLower (s : String) : String := ⟨s.data.map Char.toLower⟩

/-- Python list slicing `l[i:j]` with a non-negative `i`: a negative `j`
counts from the end. -/
def pySlice {α : Type} (l : List α) (i : Nat) (j : Int) : List α :=
  let jn : Nat := if j < 0 then ((l.length : Int) + j).toNat else j.toNat
  (l.take jn).drop i

/-! ## `SmolToolResult` (`smolagents_tools/base.py`, lines 11-47) -/

/-- `SmolToolResult.__init__` defaults mirror the Python keyword defaults;
`artifacts` is an association list in insertion order, with the artifact
value type a parameter (each tool stores its own kinds of values). -/
structure SmolToolResult (A : Type) where
  output : String := ""
  error : String := ""
  success : Bool := true
  artifacts : List (String × A) := []
  base64_image : String := ""
  system : String := ""
deriving Repr, DecidableEq

/-- `SmolToolResult.__str__`. -/
def SmolToolResult.toDisplayString {A : Type} (r : SmolToolResult A) : String :=
  if r.success then r.output else "Error: " ++ r.error

/-- Values stored in the dictionary produced by `to_dict`. -/
inductive DictVal (A : Type) where
  | str (s : String)
  | bool (b : Bool)
  | arts (l : List (String × A))
deriving Repr, DecidableEq

/-- `SmolToolResult.to_dict` (base.py lines 35-47): the four fixed keys in
order, then `base64_image` and `system` only when truthy (nonempty). -/
def SmolToolResult.to_dict {A : Type} (r : SmolToolResult A) :
    List (String × DictVal A) :=
  [("output", .str r.output), ("error", .str r.error),
   ("success", .bool r.success), ("artifacts", .arts r.artifacts)]
  ++ (if r.base64_image ≠ "" then [("base64_image", .str r.base64_image)] else [])
  ++ (if r.system ≠ "" then [("system", .str r.system)] else [])

/-! ## The synchronous bridge (`SmolTool._execute_with_kwargs`, base.py
lines 137-161) -/

/-- What running `self.execute(**kwargs)` through either bridging branch can
come to: a returned `SmolToolResult`, a returned non-`SmolToolResult` value
(its `str()`), or a raised exception carrying `str(e)`. Both bridging
branches (transient `asyncio.run` and the worker-thread pool) deliver the
same outcome to the same conversion code, so the model abstracts over the
ambient-event-loop probe. -/
inductive ExecOutcome (A : Type) where
  | ok (r : SmolToolResult A)
  | okOther (s : String)
  | raised (msg : String)

/-- `SmolTool._execute_with_kwargs`: the `isinstance` conversion of a
returned result, and the outer `except Exception` turning any raised
exception into `"Error executing tool: " ++ str(e)`. Its codomain is
`String`: the boundary always returns flat text and never raises, never the
envelope. -/
def executeWithKwargs {A : Type} (outcome : ExecOutcome A) : String :=
  match outcome with
  | .ok r => if r.success then r.output else "Error: " ++ r.error
  | .okOther s => s
  | .raised msg => "Error executing tool: " ++ msg

/-! ## The synthesized `forward` signature
(`SmolTool._create_forward_method`, base.py lines 84-135) -/

/-- One entry of a tool's `inputs` schema: the pieces `_create_forward_method`
reads (the `type` and `description` strings play no role in the synthesis). -/
structure InputDef where
  required : Bool
  default : Option String := none
deriving Repr, DecidableEq

/-- One parameter of the synthesized signature: its name and `none` when it
has no default, or `some d` when the signature gives it default `d`
(`none` inside models Python `None`). -/
structure SigParam where
  name : String
  default : Option (Option String)
deriving Repr, DecidableEq

/-- `_create_forward_method`'s signature construction: parameter names are
the `inputs` keys in order; `defaults` counts the non-required entries; the
last `len defaults` parameters are rendered `name=None` and the earlier ones
have no default. Note the generated source writes the literal `None`, not
the declared default, for every defaulted parameter. -/
def forwardSignature (inputs : List (String × InputDef)) : List SigParam :=
  let params := inputs.map Prod.fst
  let numDefaults := (inputs.filter fun p => !p.2.required).length
  let requiredParams := params.take (params.length - numDefaults)
  let defaultParams := params.drop (params.length - numDefaults)
  requiredParams.map (fun n => ⟨n, none⟩)
    ++ defaultParams.map (fun n => ⟨n, some none⟩)

/-- Calling the synthesized `forward` with keyword arguments `provided`:
Python binds the call to the signature first, raising `TypeError` when a
parameter without a default is missing, before any line of the body runs;
on success the body collects every declared name into `kwargs` (absent
optional parameters as their signature default `None`) and returns
`_execute_with_kwargs(**kwargs)`. `.error` models the raised `TypeError`;
`.ok` carries the bound `kwargs`. -/
def bindForwardCall (inputs : List (String × InputDef))
    (provided : List (String × String)) :
    Except String (List (String × Option String)) :=
  let sig := forwardSignature inputs
  if sig.all (fun p => p.default.isSome || (provided.lookup p.name).isSome) then
    .ok (sig.map fun p =>
      (p.name, match provided.lookup p.name with
               | some v => some v
               | none => p.default.getD none))
  else
    .error "TypeError: forward() missing required positional argument"

/-! ## File editor (`smolagents_tools/utils/file_editor.py`) -/

/-- The filesystem, explicit: an association list from absolute path to file
content (opening for write creates or overwrites; directories always exist,
making `os.makedirs(..., exist_ok=True)` a no-op). -/
abbrev FS := List (String × String)

/-- Python-dict-style update: replace in place, else append (insertion
order preserved). -/
def updateAssoc {α : Type} (l : List (String × α)) (k : String) (v : α) :
    List (String × α) :=
  match l with
  | [] => [(k, v)]
  | (k', v') :: rest =>
    if k' = k then (k, v) :: rest else (k', v') :: updateAssoc rest k v

/-- `open(path, 'w').write(content)`. -/
def fsWrite (fs : FS) (path content : String) : FS := updateAssoc fs path content

/-- `os.path.abspath`, modelled for already-normalized absolute paths (every
path appearing in the claims is one). -/
def abspath (p : String) : String := p

/-- The editor's instance state: the filesystem it acts on and the
`_file_states` undo stacks (`defaultdict(list)`). -/
structure EditorState where
  fs : FS
  fileStates : List (String × List String) := []
deriving Repr, DecidableEq

namespace FileEditorTool

/-- `FileEditorTool._save_file_state`: push the current content for undo,
keeping only the last 10 states; silently does nothing when the file does
not exist. -/
def saveFileState (st : EditorState) (path : String) : EditorState :=
  match st.fs.lookup path with
  | none => st
  | some content =>
    let stack := ((st.fileStates.lookup path).getD []) ++ [content]
    let stack := if stack.length > 10 then stack.drop 1 else stack
    { st with fileStates := updateAssoc st.fileStates path stack }

/-- The header and line slice chosen by `_view_file`'s `view_range` handling:
`strip('[]')`, split on the comma, parse two ints; any failure inside the
`try` is swallowed and the whole file is shown under the plain header. -/
def pyParseViewRange (vr : String) : Option (Int × Int) :=
  match pySplitOnChar ',' (stripBrackets vr) with
  | [a, b] =>
    match pyParseInt a, pyParseInt b with
    | some x, some y => some (x, y)
    | _, _ => none
  | _ => none

def viewHeader (path : String) : String :=
  "Here's the result of running `view` on " ++ path ++ ":\n"

/-- `FileEditorTool._view_file`. -/
def viewFile (fs : FS) (path : String) (view_range : Option String) :
    SmolToolResult Unit :=
  match fs.lookup path with
  | none => { error := "File not found: " ++ path, success := false }
  | some content =>
    let lines := readlines content
    let (lines, header) :=
      match view_range with
      | none => (lines, viewHeader path)
      | some vr =>
        if vr = "" then (lines, viewHeader path)
        else
          match pyParseViewRange vr with
          | none => (lines, viewHeader path)
          | some (s, e) =>
            let start : Nat := (max 1 s - 1).toNat
            let stop : Int := min (lines.length : Int) e
            (pySlice lines start stop,
             "Here's the result of running `view` on " ++ path ++
               " (lines " ++ toString (start + 1) ++ "-" ++ toString stop ++ "):\n")
    let numbered := String.join (lines.enum.map fun p =>
      padLeft6 (p.1 + 1) ++ "|" ++ p.2)
    { output := header ++ numbered, success := true }

/-- `FileEditorTool._create_file`. -/
def createFile (fs : FS) (path file_text : String) : SmolToolResult Unit × FS :=
  match fs.lookup path with
  | some _ =>
    ({ error := "File already exists: " ++ path ++ ". Use str_replace to edit.",
       success := false }, fs)
  | none =>
    ({ output := "File created successfully at " ++ path, success := true },
     fsWrite fs path file_text)

/-- `FileEditorTool._str_replace`: exists check, undo snapshot, containment
check, ambiguity check (`count > 1`), then replace and write back. -/
def strReplace (st : EditorState) (path old_str new_str : String) :
    SmolToolResult Unit × EditorState :=
  match st.fs.lookup path with
  | none => ({ error := "File not found: " ++ path, success := false }, st)
  | some content =>
    let st := saveFileState st path
    if !pyIn old_str content then
      ({ error := "String not found in file: " ++ old_str, success := false }, st)
    else
      if pyCount content old_str > 1 then
        ({ error := "Multiple occurrences found (" ++
             toString (pyCount content old_str) ++
             "). Please be more specific.", success := false }, st)
      else
        ({ output := "String replaced successfully in " ++ path, success := true },
         { st with fs := fsWrite st.fs path (pyReplace content old_str new_str) })

/-- `FileEditorTool._undo_edit`: pop the last saved state and write it back. -/
def undoEdit (st : EditorState) (path : String) :
    SmolToolResult Unit × EditorState :=
  match st.fileStates.lookup path with
  | none => ({ error := "No previous state found for " ++ path, success := false }, st)
  | some stack =>
    if stack.isEmpty then
      ({ error := "No previous state found for " ++ path, success := false }, st)
    else
      ({ output := "Undid last edit to " ++ path, success := true },
       { fs := fsWrite st.fs path (stack.getLast!),
         fileStates := updateAssoc st.fileStates path stack.dropLast })

/-- `FileEditorTool.execute` (file_editor.py lines 211-265): dispatch on
`command` after `os.path.abspath`, with the `is None` checks for the
per-command required parameters. -/
def execute (st : EditorState) (command path : String)
    (file_text old_str new_str view_range : Option String) :
    SmolToolResult Unit × EditorState :=
  let path := abspath path
  if command = "view" then
    (viewFile st.fs path view_range, st)
  else if command = "create" then
    match file_text with
    | none =>
      ({ error := "file_text is required for create command", success := false }, st)
    | some ft =>
      let r := createFile st.fs path ft
      (r.1, { st with fs := r.2 })
  else if command = "str_replace" then
    match old_str, new_str with
    | some o, some n => strReplace st path o n
    | _, _ =>
      ({ error := "old_str and new_str are required for str_replace command",
         success := false }, st)
  else if command = "undo_edit" then
    undoEdit st path
  else
    ({ error := "Unknown command: " ++ command ++
         ". Use view, create, str_replace, or undo_edit", success := false }, st)

end FileEditorTool

/-! ## Planner (`smolagents_tools/utils/planning.py`) -/

/-- Python `s.strip()` (whitespace strip) as used on dependency entries. -/
def pyStrip (s : String) : String :=
  ⟨((s.data.dropWhile Char.isWhitespace).reverse.dropWhile Char.isWhitespace).reverse⟩

/-- Python truthiness of an `Optional[str]` value (`None` and `""` are
falsy). -/
def truthy (o : Option String) : Bool :=
  match o with
  | none => false
  | some s => s ≠ ""

/-- A task dictionary as built by `_break_down_task` / `_add_task`;
`estimated_time`, `completed_at` and `updates` model keys that may be
absent (`none` / `[]`). An `updates` entry is `(timestamp, content)`. -/
structure PTask where
  id : String
  title : String
  description : String
  status : String
  priority : String
  created_at : String
  dependencies : List String
  estimated_time : Option String := none
  completed_at : Option String := none
  updates : List (String × String) := []
deriving Repr, DecidableEq, Inhabited

/-- The `progress` sub-dictionary of a plan. Python integers, so `Int`. -/
structure Progress where
  total_tasks : Int
  completed_tasks : Int
  in_progress_tasks : Int
  pending_tasks : Int
deriving Repr, DecidableEq, Inhabited

/-- A plan dictionary as built by `_create_plan`. -/
structure Plan where
  id : String
  title : String
  description : String
  created_at : String
  status : String
  tasks : List PTask
  progress : Progress
deriving Repr, DecidableEq, Inhabited

/-- The artifact values the planner stores (`plan_id`/`task_id` strings,
plan, task and progress dictionaries, suggested subtask lists). -/
inductive PlanArt where
  | str (s : String)
  | plan (p : Plan)
  | task (t : PTask)
  | progress (pr : Progress)
  | tasks (l : List PTask)
deriving Repr, DecidableEq

/-- `PlanningTool`'s instance state: `_plans`, `_next_plan_id`,
`_next_task_id`. -/
structure PlannerState where
  plans : List (String × Plan) := []
  next_plan_id : Nat := 1
  next_task_id : Nat := 1
deriving Repr, DecidableEq

namespace PlanningTool

def generatePlanId (st : PlannerState) : String × PlannerState :=
  ("plan_" ++ toString st.next_plan_id, { st with next_plan_id := st.next_plan_id + 1 })

def generateTaskId (st : PlannerState) : String × PlannerState :=
  ("task_" ++ toString st.next_task_id, { st with next_task_id := st.next_task_id + 1 })

/-- The `(title, description)` template chosen by `_break_down_task`'s
keyword heuristics. -/
def webTemplate : List (String × String) :=
  [("Plan and Design", "Create wireframes and plan the structure"),
   ("Setup Project", "Initialize project structure and dependencies"),
   ("Implement Frontend", "Create user interface components"),
   ("Implement Backend", "Create server-side logic and APIs"),
   ("Testing", "Test functionality and fix bugs"),
   ("Deployment", "Deploy to production environment")]

def apiTemplate : List (String × String) :=
  [("Design API", "Define endpoints and data structures"),
   ("Setup Framework", "Initialize API framework and dependencies"),
   ("Implement Endpoints", "Create API endpoints and logic"),
   ("Add Authentication", "Implement security and authentication"),
   ("Testing", "Test API endpoints and functionality"),
   ("Documentation", "Create API documentation")]

def analysisTemplate : List (String × String) :=
  [("Data Collection", "Gather and prepare data sources"),
   ("Data Cleaning", "Clean and preprocess the data"),
   ("Exploratory Analysis", "Perform initial data exploration"),
   ("Analysis", "Conduct detailed analysis"),
   ("Visualization", "Create charts and visualizations"),
   ("Report", "Compile findings into a report")]

def genericTemplate : List (String × String) :=
  [("Research and Planning", "Research requirements and plan approach"),
   ("Setup and Preparation", "Prepare tools and environment"),
   ("Implementation", "Execute the main work"),
   ("Testing and Validation", "Test and validate the results"),
   ("Documentation", "Document the process and results")]

/-- The id/metadata-assignment loop at the end of `_break_down_task`. -/
def assignIds (tmpl : List (String × String)) (now : String)
    (st : PlannerState) : List PTask × PlannerState :=
  match tmpl with
  | [] => ([], st)
  | (title, desc) :: rest =>
    let (tid, st1) := generateTaskId st
    let (ts, st2) := assignIds rest now st1
    ({ id := tid, title := title, description := desc, status := "pending",
       priority := "medium", created_at := now, dependencies := [] } :: ts, st2)

/-- `PlanningTool._break_down_task`. -/
def breakDownTask (task_description now : String) (st : PlannerState) :
    List PTask × PlannerState :=
  let low := pyLower task_description
  let tmpl :=
    if pyIn "website" low || pyIn "web app" low then webTemplate
    else if pyIn "api" low then apiTemplate
    else if pyIn "data analysis" low || pyIn "analysis" low then analysisTemplate
    else genericTemplate
  assignIds tmpl now st

/-- The subtask-listing loop in `_create_plan`'s output formatting. -/
def subtaskListing (tasks : List PTask) : String :=
  String.join (tasks.enum.map fun p =>
    toString (p.1 + 1) ++ ". " ++ p.2.title ++ " (ID: " ++ p.2.id ++ ")\n" ++
    "   Description: " ++ p.2.description ++ "\n" ++
    "   Status: " ++ p.2.status ++ "\n\n")

/-- `PlanningTool._create_plan`. -/
def createPlan (task_description now : String) (st : PlannerState) :
    SmolToolResult PlanArt × PlannerState :=
  let g := generatePlanId st
  let plan_id := g.1
  let st1 := g.2
  let bd := breakDownTask task_description now st1
  let subtasks := bd.1
  let st2 := bd.2
  let plan : Plan :=
    { id := plan_id, title := task_description,
      description := "Plan for: " ++ task_description,
      created_at := now, status := "active", tasks := subtasks,
      progress := { total_tasks := subtasks.length, completed_tasks := 0,
                    in_progress_tasks := 0, pending_tasks := subtasks.length } }
  let st3 := { st2 with plans := updateAssoc st2.plans plan_id plan }
  let output := "Created plan '" ++ plan_id ++ "' for: " ++ task_description ++
    "\n\n" ++ "Subtasks:\n" ++ subtaskListing subtasks
  ({ output := output, success := true,
     artifacts := [("plan_id", .str plan_id), ("plan", .plan plan)] }, st3)

/-- `dependencies.split(",")` with per-entry `strip()` and empty entries
dropped, guarded by the truthiness check. -/
def parseDeps (dependencies : Option String) : List String :=
  if truthy dependencies then
    ((pySplitOnChar ',' (dependencies.getD "")).map pyStrip).filter (fun d => d ≠ "")
  else []

/-- `PlanningTool._add_task`. -/
def addTask (plan_id title description priority : String)
    (estimated_time dependencies : Option String) (now : String)
    (st : PlannerState) : SmolToolResult PlanArt × PlannerState :=
  match st.plans.lookup plan_id with
  | none => ({ error := "Plan " ++ plan_id ++ " not found", success := false }, st)
  | some plan =>
    let g := generateTaskId st
    let task_id := g.1
    let st1 := g.2
    let new_task : PTask :=
      { id := task_id, title := title, description := description,
        status := "pending", priority := priority,
        estimated_time := estimated_time, dependencies := parseDeps dependencies,
        created_at := now }
    let plan' := { plan with
      tasks := plan.tasks ++ [new_task],
      progress := { plan.progress with
        total_tasks := plan.progress.total_tasks + 1,
        pending_tasks := plan.progress.pending_tasks + 1 } }
    ({ output := "Added task '" ++ title ++ "' (ID: " ++ task_id ++ ") to plan " ++
         plan_id, success := true,
       artifacts := [("task_id", .str task_id), ("task", .task new_task)] },
     { st1 with plans := updateAssoc st1.plans plan_id plan' })

/-- In-place mutation of the first task with the given id (the `for … break`
search followed by mutation of the found dictionary). -/
def updateFirstTask (tasks : List PTask) (tid : String) (f : PTask → PTask) :
    List PTask :=
  match tasks with
  | [] => []
  | t :: rest =>
    if t.id = tid then f t :: rest else t :: updateFirstTask rest tid f

def findTask (tasks : List PTask) (tid : String) : Option PTask :=
  tasks.find? (fun t => t.id = tid)

/-- `PlanningTool._update_task`. -/
def updateTask (plan_id task_id update_content now : String)
    (st : PlannerState) : SmolToolResult PlanArt × PlannerState :=
  match st.plans.lookup plan_id with
  | none => ({ error := "Plan " ++ plan_id ++ " not found", success := false }, st)
  | some plan =>
    match findTask plan.tasks task_id with
    | none =>
      ({ error := "Task " ++ task_id ++ " not found in plan " ++ plan_id,
         success := false }, st)
    | some task =>
      let task' := { task with updates := task.updates ++ [(now, update_content)] }
      let plan' := { plan with
        tasks := updateFirstTask plan.tasks task_id
          (fun t => { t with updates := t.updates ++ [(now, update_content)] }) }
      ({ output := "Updated task " ++ task_id ++ " in plan " ++ plan_id,
         success := true, artifacts := [("task", .task task')] },
       { st with plans := updateAssoc st.plans plan_id plan' })

/-- Round-half-even of `num / den` for `den > 0` (floor division and
remainder). -/
def roundHalfEvenDiv (num den : Int) : Int :=
  let q := num.fdiv den
  let r := num.fmod den
  if 2 * r < den then q
  else if 2 * r > den then q + 1
  else if q % 2 = 0 then q else q + 1

/-- Python `f"{(c / t) * 100:.1f}"` for the nonnegative `c` and positive `t`
arising here: at every value reachable in this development the
double-precision evaluation agrees with exact rational rounding of
`1000 * c / t` (the reachable quotients are far from the
representation-induced tie breaks). -/
def fmtPct1 (c t : Int) : String :=
  let n := (roundHalfEvenDiv (1000 * c) t).toNat
  toString (n / 10) ++ "." ++ toString (n % 10)

/-- `PlanningTool._complete_task`: status transition, progress counter
updates, formatted completion rate. When `total_tasks = 0` Python raises
`ZeroDivisionError` after the mutations, which the surrounding `except`
turns into the failure envelope — the mutated plan remains stored. -/
def completeTask (plan_id task_id now : String) (st : PlannerState) :
    SmolToolResult PlanArt × PlannerState :=
  match st.plans.lookup plan_id with
  | none => ({ error := "Plan " ++ plan_id ++ " not found", success := false }, st)
  | some plan =>
    match findTask plan.tasks task_id with
    | none =>
      ({ error := "Task " ++ task_id ++ " not found in plan " ++ plan_id,
         success := false }, st)
    | some task =>
      let old_status := task.status
      let task' := { task with status := "completed", completed_at := some now }
      let progress := plan.progress
      let progress' := { progress with
        pending_tasks :=
          if old_status = "pending" then progress.pending_tasks - 1
          else progress.pending_tasks,
        in_progress_tasks :=
          if old_status = "in_progress" then progress.in_progress_tasks - 1
          else progress.in_progress_tasks,
        completed_tasks := progress.completed_tasks + 1 }
      let plan' := { plan with
        tasks := updateFirstTask plan.tasks task_id
          (fun t => { t with status := "completed", completed_at := some now }),
        progress := progress' }
      let st' := { st with plans := updateAssoc st.plans plan_id plan' }
      if plan.progress.total_tasks = 0 then
        ({ error := "Failed to complete task: division by zero",
           success := false }, st')
      else
        ({ output := "Completed task '" ++ task.title ++ "' (ID: " ++ task_id ++
             ")\nPlan progress: " ++
             fmtPct1 progress'.completed_tasks progress'.total_tasks ++
             "% complete",
           success := true,
           artifacts := [("task", .task task'), ("progress", .progress progress')] },
         st')

/-- The per-task rendering loop in `_get_plan`. -/
def getPlanTaskLines (tasks : List PTask) : String :=
  String.join (tasks.map fun t =>
    let icon := if t.status = "completed" then "✓"
                else if t.status = "pending" then "○" else "◐"
    icon ++ " " ++ t.title ++ " (ID: " ++ t.id ++ ") - " ++ t.status ++ "\n" ++
    "   " ++ t.description ++ "\n" ++
    (if t.priority ≠ "medium" then "   Priority: " ++ t.priority ++ "\n" else "") ++
    (match t.estimated_time with
     | some e => if e ≠ "" then "   Estimated time: " ++ e ++ "\n" else ""
     | none => "") ++
    (if t.dependencies ≠ [] then
       "   Dependencies: " ++ String.intercalate ", " t.dependencies ++ "\n"
     else "") ++
    "\n")

/-- `PlanningTool._get_plan` (ZeroDivisionError on an empty plan handled as
in `completeTask`, here with no prior mutation). -/
def getPlan (plan_id : String) (st : PlannerState) :
    SmolToolResult PlanArt × PlannerState :=
  match st.plans.lookup plan_id with
  | none => ({ error := "Plan " ++ plan_id ++ " not found", success := false }, st)
  | some plan =>
    if plan.progress.total_tasks = 0 then
      ({ error := "Failed to get plan: division by zero", success := false }, st)
    else
      let progress := plan.progress
      let output := "Plan: " ++ plan.title ++ " (ID: " ++ plan_id ++ ")\n" ++
        "Status: " ++ plan.status ++ "\n" ++
        "Created: " ++ plan.created_at ++ "\n" ++
        "Progress: " ++ fmtPct1 progress.completed_tasks progress.total_tasks ++
        "% complete (" ++ toString progress.completed_tasks ++ "/" ++
        toString progress.total_tasks ++ " tasks)\n\n" ++
        "Tasks:\n" ++ getPlanTaskLines plan.tasks
      ({ output := output, success := true, artifacts := [("plan", .plan plan)] }, st)

/-- The suggestion-listing loop in `_analyze_task`. -/
def analyzeListing (tasks : List PTask) : String :=
  String.join (tasks.enum.map fun p =>
    toString (p.1 + 1) ++ ". " ++ p.2.title ++ "\n" ++
    "   Description: " ++ p.2.description ++ "\n" ++
    "   Priority: " ++ p.2.priority ++ "\n\n")

/-- `PlanningTool._analyze_task` (it advances the task-id counter because it
calls `_break_down_task`). -/
def analyzeTask (task_description now : String) (st : PlannerState) :
    SmolToolResult PlanArt × PlannerState :=
  let bd := breakDownTask task_description now st
  let subtasks := bd.1
  let st1 := bd.2
  let output := "Analysis for task: " ++ task_description ++ "\n\n" ++
    "Suggested breakdown:\n" ++ analyzeListing subtasks ++
    "Total estimated subtasks: " ++ toString subtasks.length ++ "\n" ++
    "Use 'create_plan' action to create an actual plan from this analysis."
  ({ output := output, success := true,
     artifacts := [("suggested_subtasks", .tasks subtasks)] }, st1)

/-- `PlanningTool.execute` (planning.py lines 397-482): dispatch on `action`
with the truthiness guards for each action's required parameters. `priority`
keeps its Python signature default `"medium"`; `now` threads
`datetime.now().isoformat()`. -/
def execute (st : PlannerState) (action : String)
    (task_description plan_id task_id subtask_title subtask_description :
      Option String)
    (priority : String) (estimated_time dependencies update_content :
      Option String) (now : String) :
    SmolToolResult PlanArt × PlannerState :=
  if action = "create_plan" then
    if !truthy task_description then
      ({ error := "task_description is required for create_plan action",
         success := false }, st)
    else createPlan (task_description.getD "") now st
  else if action = "add_task" then
    if !(truthy plan_id && truthy subtask_title && truthy subtask_description) then
      ({ error := "plan_id, subtask_title, and subtask_description are required for add_task action",
         success := false }, st)
    else
      addTask (plan_id.getD "") (subtask_title.getD "")
        (subtask_description.getD "") priority estimated_time dependencies now st
  else if action = "update_task" then
    if !(truthy plan_id && truthy task_id && truthy update_content) then
      ({ error := "plan_id, task_id, and update_content are required for update_task action",
         success := false }, st)
    else updateTask (plan_id.getD "") (task_id.getD "") (update_content.getD "") now st
  else if action = "complete_task" then
    if !(truthy plan_id && truthy task_id) then
      ({ error := "plan_id and task_id are required for complete_task action",
         success := false }, st)
    else completeTask (plan_id.getD "") (task_id.getD "") now st
  else if action = "get_plan" then
    if !truthy plan_id then
      ({ error := "plan_id is required for get_plan action", success := false }, st)
    else getPlan (plan_id.getD "") st
  else if action = "analyze_task" then
    if !truthy task_description then
      ({ error := "task_description is required for analyze_task action",
         success := false }, st)
    else analyzeTask (task_description.getD "") now st
  else
    ({ error := "Unknown action: " ++ action, success := false }, st)

end PlanningTool

/-! ## Tool descriptors of the two adapters the claims examine -/

/-- The `inputs` schema of `FileEditorTool.__init__` (required/default parts;
no entry declares a `default` key). -/
def fileEditorInputs : List (String × InputDef) :=
  [("command", { required := true }),
   ("path", { required := true }),
   ("file_text", { required := false }),
   ("old_str", { required := false }),
   ("new_str", { required := false }),
   ("view_range", { required := false })]

/-- The `inputs` schema of `PlanningTool.__init__`; only `priority` declares
a `default` (`"medium"`). -/
def planningInputs : List (String × InputDef) :=
  [("action", { required := true }),
   ("task_description", { required := false }),
   ("plan_id", { required := false }),
   ("task_id", { required := false }),
   ("subtask_title", { required := false }),
   ("subtask_description", { required := false }),
   ("priority", { required := false, default := some "medium" }),
   ("estimated_time", { required := false }),
   ("dependencies", { required := false }),
   ("update_content", { required := false })]

/-! ## Statement helpers -/

/-- Python `s.startswith(pre)`. -/
def pyStartsWith (pre s : String) : Bool := pre.data.isPrefixOf s.data

/-- The envelope invariant of the spec: a successful result has an empty
`error`, a failed one a nonempty `error`. -/
def ResultInv {A : Type} (r : SmolToolResult A) : Prop :=
  (r.success = true → r.error = "") ∧ (r.success = false → r.error ≠ "")

/-- Numbered lines in a `view` output: the lines carrying the `"{i:6}|"`
column separator (the header line has none). -/
def numberedLineCount (s : String) : Nat :=
  ((pySplitOnChar '\n' s).filter (fun l => pyIn "|" l)).length

/-! ## Abbreviations for the state `_complete_task` produces (used to state
its characterization) -/

/-- The in-place mutation `_complete_task` applies to the found task. -/
def markCompleted (now : String) (t : PTask) : PTask :=
  { t with status := "completed", completed_at := some now }

/-- The progress-counter update `_complete_task` applies, driven by the
task's previous status. -/
def completeProgress (status : String) (p : Progress) : Progress :=
  { p with
    pending_tasks :=
      if status = "pending" then p.pending_tasks - 1 else p.pending_tasks,
    in_progress_tasks :=
      if status = "in_progress" then p.in_progress_tasks - 1
      else p.in_progress_tasks,
    completed_tasks := p.completed_tasks + 1 }

/-- The plan as stored after `_complete_task` succeeds on `task_id`. -/
def completedPlanUpd (plan : Plan) (task_id now status : String) : Plan :=
  { plan with
    tasks := PlanningTool.updateFirstTask plan.tasks task_id (markCompleted now),
    progress := completeProgress status plan.progress }

/-- The planner state right after `create_plan` on the web-app description
(concrete instance used to witness the double-completion claim). -/
def webAppPlanState : PlannerState :=
  (PlanningTool.createPlan "Build a simple web application" "T0" {}).2

def webAppPlan : Plan := (webAppPlanState.plans.lookup "plan_1").getD default

def webAppFirstTask : PTask :=
  (PlanningTool.findTask webAppPlan.tasks "task_1").getD default

/-! ## Shared lemmas -/

theorem string_append_ne_empty (a b : String) (ha : a ≠ "") : a ++ b ≠ "" := by
  intro h
  have hl := congrArg String.length h
  rw [String.length_append] at hl
  apply ha
  have : a.length = 0 := by
    have : ("" : String).length = 0 := rfl
    omega
  cases a with
  | mk data =>
    cases data with
    | nil => rfl
    | cons c cs => simp [String.length] at this

theorem lookup_updateAssoc {α : Type} (l : List (String × α)) (k : String)
    (v : α) : (updateAssoc l k v).lookup k = some v := by
  induction l with
  | nil => simp [updateAssoc, List.lookup]
  | cons p rest ih =>
    obtain ⟨k', v'⟩ := p
    by_cases hk : k' = k
    · simp [updateAssoc, hk, List.lookup]
    · have hbeq : (k == k') = false := by
        rw [beq_eq_false_iff_ne]
        exact fun hc => hk hc.symm
      simp [updateAssoc, hk, List.lookup, ih, hbeq]

/-! ## Claims -/

/-- C1 counterexample: when `execute` raises an exception (message `"boom"`),
`_execute_with_kwargs` returns `"Error executing tool: boom"`, which is NOT
a string of the form `"Error: <message>"` (it does not start with
`"Error: "`), contrary to the claim's stated shape. -/
theorem c1_counterexample_exception_string :
    executeWithKwargs (A := Unit) (.raised "boom") = "Error executing tool: boom" ∧
    pyStartsWith "Error: " (executeWithKwargs (A := Unit) (.raised "boom")) = false :=
  ⟨rfl, by decide⟩

/-- C1 (amended): any exception raised by `execute` or the bridging
mechanism is caught at the synchronous boundary and converted into the flat
string `"Error executing tool: <message>"` (not `"Error: <message>"` — that
shape arises only from a returned envelope with `success = False`); the
boundary always returns a flat string (the codomain of `executeWithKwargs`
is `String`) and never the envelope object. -/
theorem c1_amended_flat_string_boundary {A : Type} (msg : String)
    (r : SmolToolResult A) (s : String) :
    executeWithKwargs (A := A) (ExecOutcome.raised msg) = "Error executing tool: " ++ msg ∧
    executeWithKwargs (ExecOutcome.ok r) = r.toDisplayString ∧
    executeWithKwargs (A := A) (ExecOutcome.okOther s) = s :=
  ⟨rfl, rfl, rfl⟩

/-- C2 counterexample: calling the file editor's synthesized `forward` with
no arguments at all (omitting the required `command` and `path`) makes
Python's call binding raise `TypeError` before the body runs — the call
raises instead of returning an `"Error:"`-prefixed string. -/
theorem c2_counterexample_missing_param_raises :
    bindForwardCall fileEditorInputs [] =
      .error "TypeError: forward() missing required positional argument" := rfl

/-- C2 (amended): omitting any parameter that the synthesized signature
leaves without a default makes the `forward` call raise `TypeError` at the
signature-binding step; the `"Error: <message>"` conversion applies only to
failures arising after binding succeeds. -/
theorem c2_amended_typeerror_on_missing (inputs : List (String × InputDef))
    (provided : List (String × String)) (p : SigParam)
    (hp : p ∈ forwardSignature inputs) (hd : p.default = none)
    (hm : provided.lookup p.name = none) :
    bindForwardCall inputs provided =
      .error "TypeError: forward() missing required positional argument" := by
  unfold bindForwardCall
  have hall : ¬ ((forwardSignature inputs).all fun q =>
      q.default.isSome || (provided.lookup q.name).isSome) = true := by
    simp only [List.all_eq_true]
    intro h
    have hq := h p hp
    rw [hd, hm] at hq
    simp at hq
  simp only [hall, if_false, Bool.false_eq_true, reduceIte]

theorem c2_amended_typeerror_on_missing_witness :
    (⟨"command", none⟩ : SigParam) ∈ forwardSignature fileEditorInputs ∧
    (⟨"command", none⟩ : SigParam).default = none ∧
    List.lookup "command" ([] : List (String × String)) = none ∧
    bindForwardCall fileEditorInputs [] =
      .error "TypeError: forward() missing required positional argument" :=
  ⟨by decide, rfl, rfl,
   c2_amended_typeerror_on_missing fileEditorInputs [] ⟨"command", none⟩
     (by decide) rfl rfl⟩

/-- C3 counterexample: the planner's schema declares `priority` with default
`"medium"`, but the synthesized `forward` signature gives `priority` the
default `None` (the generated source writes the literal `None` for every
defaulted parameter), so the signature default does not equal the declared
default. -/
theorem c3_counterexample_priority_default :
    planningInputs.lookup "priority" =
      some { required := false, default := some "medium" } ∧
    (forwardSignature planningInputs).find? (fun p => p.name == "priority") =
      some ⟨"priority", some none⟩ ∧
    (some (none : Option String)) ≠ some (some "medium") :=
  ⟨rfl, rfl, by decide⟩

/-- C3 (amended): the synthesized `forward` signature exposes exactly the
declared parameter names in declaration order, but every parameter that
receives a default in the signature receives `None`, never the schema's
declared default value. -/
theorem c3_amended_names_exact_defaults_none
    (inputs : List (String × InputDef)) :
    (forwardSignature inputs).map SigParam.name = inputs.map Prod.fst ∧
    ∀ p ∈ forwardSignature inputs, p.default = none ∨ p.default = some none := by
  constructor
  · simp only [forwardSignature, List.map_append, List.map_map]
    have h1 : (SigParam.name ∘ fun n => (⟨n, none⟩ : SigParam)) = id := rfl
    have h2 : (SigParam.name ∘ fun n => (⟨n, some none⟩ : SigParam)) = id := rfl
    rw [h1, h2, List.map_id, List.map_id, List.take_append_drop]
  · intro p hp
    simp only [forwardSignature, List.mem_append, List.mem_map] at hp
    rcases hp with ⟨n, _, rfl⟩ | ⟨n, _, rfl⟩
    · exact Or.inl rfl
    · exact Or.inr rfl

theorem c3_amended_names_exact_defaults_none_witness :
    ((forwardSignature planningInputs).map SigParam.name =
      planningInputs.map Prod.fst) ∧
    ((⟨"priority", some none⟩ : SigParam) ∈ forwardSignature planningInputs ∧
      ((⟨"priority", some none⟩ : SigParam).default = none ∨
       (⟨"priority", some none⟩ : SigParam).default = some none)) :=
  ⟨(c3_amended_names_exact_defaults_none planningInputs).1,
   by decide,
   (c3_amended_names_exact_defaults_none planningInputs).2 _ (by decide)⟩

/-- C4: `to_dict` preserves `success`, `output` and `error` exactly as
constructed, always includes the `artifacts` mapping (even when empty), and
carries the `base64_image` / `system` keys exactly when the corresponding
field is nonempty. -/
theorem c4_to_dict_projection {A : Type} (r : SmolToolResult A) :
    r.to_dict.lookup "output" = some (.str r.output) ∧
    r.to_dict.lookup "error" = some (.str r.error) ∧
    r.to_dict.lookup "success" = some (.bool r.success) ∧
    r.to_dict.lookup "artifacts" = some (.arts r.artifacts) ∧
    ((r.to_dict.lookup "base64_image").isSome ↔ r.base64_image ≠ "") ∧
    ((r.to_dict.lookup "system").isSome ↔ r.system ≠ "") := by
  by_cases hb : r.base64_image = "" <;> by_cases hs : r.system = "" <;>
    simp [SmolToolResult.to_dict, hb, hs, List.lookup]

/-- C6: on content `"foo bar foo"`, `str_replace` of `"foo"` by `"baz"` fails
(the match count is 2, ambiguous) and leaves the file unchanged; on content
`"foo bar"` the same call succeeds and the file afterwards reads
`"baz bar"`. -/
theorem c6_str_replace_scenarios :
    pyCount "foo bar foo" "foo" = 2 ∧
    (FileEditorTool.execute { fs := [("/tmp/f.txt", "foo bar foo")] }
        "str_replace" "/tmp/f.txt" none (some "foo") (some "baz") none).1.success
      = false ∧
    (FileEditorTool.execute { fs := [("/tmp/f.txt", "foo bar foo")] }
        "str_replace" "/tmp/f.txt" none (some "foo") (some "baz") none).2.fs.lookup
        "/tmp/f.txt" = some "foo bar foo" ∧
    (FileEditorTool.execute { fs := [("/tmp/f.txt", "foo bar")] }
        "str_replace" "/tmp/f.txt" none (some "foo") (some "baz") none).1.success
      = true ∧
    (FileEditorTool.execute { fs := [("/tmp/f.txt", "foo bar")] }
        "str_replace" "/tmp/f.txt" none (some "foo") (some "baz") none).2.fs.lookup
        "/tmp/f.txt" = some "baz bar" := by
  decide

/-- C7: starting from a filesystem where `/tmp/x.txt` does not exist,
`create` with `"a\nb\nc"` succeeds; `view` then succeeds with an output
carrying exactly three numbered lines; a second `create` on the same path
fails with an "already exists" error and leaves the content unchanged. -/
theorem c7_create_view_create_scenario :
    (List.lookup "/tmp/x.txt" ([] : FS)) = none ∧
    (FileEditorTool.execute { fs := [] } "create" "/tmp/x.txt" (some "a\nb\nc")
        none none none).1.success = true ∧
    (FileEditorTool.execute
        (FileEditorTool.execute { fs := [] } "create" "/tmp/x.txt" (some "a\nb\nc")
          none none none).2
        "view" "/tmp/x.txt" none none none none).1.success = true ∧
    (FileEditorTool.execute
        (FileEditorTool.execute { fs := [] } "create" "/tmp/x.txt" (some "a\nb\nc")
          none none none).2
        "view" "/tmp/x.txt" none none none none).1.output =
      "Here's the result of running `view` on /tmp/x.txt:\n     1|a\n     2|b\n     3|c" ∧
    numberedLineCount (FileEditorTool.execute
        (FileEditorTool.execute { fs := [] } "create" "/tmp/x.txt" (some "a\nb\nc")
          none none none).2
        "view" "/tmp/x.txt" none none none none).1.output = 3 ∧
    (FileEditorTool.execute
        (FileEditorTool.execute { fs := [] } "create" "/tmp/x.txt" (some "a\nb\nc")
          none none none).2
        "create" "/tmp/x.txt" (some "zzz") none none none).1.success = false ∧
    pyIn "already exists" (FileEditorTool.execute
        (FileEditorTool.execute { fs := [] } "create" "/tmp/x.txt" (some "a\nb\nc")
          none none none).2
        "create" "/tmp/x.txt" (some "zzz") none none none).1.error = true ∧
    (FileEditorTool.execute
        (FileEditorTool.execute { fs := [] } "create" "/tmp/x.txt" (some "a\nb\nc")
          none none none).2
        "create" "/tmp/x.txt" (some "zzz") none none none).2.fs.lookup "/tmp/x.txt"
      = some "a\nb\nc" := by
  decide

/-- C8: `create_plan` on "Build a simple web application" succeeds, carries
the plan identifier `plan_1` in its artifacts, and generates exactly the six
web-app-template subtasks (the first with id `task_1`); `complete_task` on
that plan and `task_1` succeeds and reports progress 1 of 6 (the `progress`
artifact has `completed_tasks = 1`, `total_tasks = 6`; the output renders
the rate `1/6` as `16.7% complete`). -/
theorem c8_planner_web_app_scenario :
    (PlanningTool.execute {} "create_plan" (some "Build a simple web application")
        none none none none "medium" none none none "T0").1.success = true ∧
    (PlanningTool.execute {} "create_plan" (some "Build a simple web application")
        none none none none "medium" none none none "T0").1.artifacts.lookup
        "plan_id" = some (.str "plan_1") ∧
    (((PlanningTool.execute {} "create_plan" (some "Build a simple web application")
        none none none none "medium" none none none "T0").2.plans.lookup
        "plan_1").map fun p => p.tasks.map PTask.title) =
      some ["Plan and Design", "Setup Project", "Implement Frontend",
            "Implement Backend", "Testing", "Deployment"] ∧
    (((PlanningTool.execute {} "create_plan" (some "Build a simple web application")
        none none none none "medium" none none none "T0").2.plans.lookup
        "plan_1").map fun p => (p.tasks.map PTask.id).head?) = some (some "task_1") ∧
    (PlanningTool.execute
        (PlanningTool.execute {} "create_plan" (some "Build a simple web application")
          none none none none "medium" none none none "T0").2
        "complete_task" none (some "plan_1") (some "task_1") none none "medium"
        none none none "T1").1.success = true ∧
    (PlanningTool.execute
        (PlanningTool.execute {} "create_plan" (some "Build a simple web application")
          none none none none "medium" none none none "T0").2
        "complete_task" none (some "plan_1") (some "task_1") none none "medium"
        none none none "T1").1.artifacts.lookup "progress" =
      some (.progress { total_tasks := 6, completed_tasks := 1,
                        in_progress_tasks := 0, pending_tasks := 5 }) ∧
    pyIn "16.7% complete" (PlanningTool.execute
        (PlanningTool.execute {} "create_plan" (some "Build a simple web application")
          none none none none "medium" none none none "T0").2
        "complete_task" none (some "plan_1") (some "task_1") none none "medium"
        none none none "T1").1.output = true := by
  decide

/-- C9 counterexample: with an existing file and the unparsable
`view_range = "not-a-range"`, `execute(command="view", ...)` does NOT report
an error: the parse failure is swallowed by the `except` clause and the
whole file is viewed with `success = True`, identical to a call without a
range. -/
theorem c9_counterexample_malformed_range_ignored :
    FileEditorTool.pyParseViewRange "not-a-range" = none ∧
    (FileEditorTool.execute { fs := [("/tmp/x.txt", "a\nb\nc")] } "view"
        "/tmp/x.txt" none none none (some "not-a-range")).1.success = true ∧
    (FileEditorTool.execute { fs := [("/tmp/x.txt", "a\nb\nc")] } "view"
        "/tmp/x.txt" none none none (some "not-a-range")).1 =
      (FileEditorTool.execute { fs := [("/tmp/x.txt", "a\nb\nc")] } "view"
        "/tmp/x.txt" none none none none).1 := by
  decide

/-- C9 (amended): for `view` on an existing file, a malformed (unparsable)
`view_range` is silently ignored rather than reported: the underlying
operation proceeds, returning the same successful whole-file view as a call
without a range. -/
theorem c9_amended_malformed_range_silently_ignored (st : EditorState)
    (path content vr : String)
    (hf : st.fs.lookup (abspath path) = some content)
    (hp : FileEditorTool.pyParseViewRange vr = none) (hvr : vr ≠ "") :
    (FileEditorTool.execute st "view" path none none none (some vr)).1.success
      = true ∧
    (FileEditorTool.execute st "view" path none none none (some vr)).1 =
      (FileEditorTool.execute st "view" path none none none none).1 := by
  unfold FileEditorTool.execute
  simp only [reduceIte]
  unfold FileEditorTool.viewFile
  rw [hf]
  simp [hp, hvr]

theorem c9_amended_malformed_range_silently_ignored_witness :
    (({ fs := [("/a", "x")] } : EditorState).fs.lookup (abspath "/a") = some "x") ∧
    FileEditorTool.pyParseViewRange "not-a-range" = none ∧
    ("not-a-range" : String) ≠ "" ∧
    ((FileEditorTool.execute { fs := [("/a", "x")] } "view" "/a" none none none
        (some "not-a-range")).1.success = true ∧
     (FileEditorTool.execute { fs := [("/a", "x")] } "view" "/a" none none none
        (some "not-a-range")).1 =
       (FileEditorTool.execute { fs := [("/a", "x")] } "view" "/a" none none none
          none).1) :=
  ⟨rfl, rfl, by decide,
   c9_amended_malformed_range_silently_ignored { fs := [("/a", "x")] } "/a" "x"
     "not-a-range" rfl rfl (by decide)⟩

/-! ### Envelope invariant, per branch -/

theorem resultInv_of_success {A : Type} (r : SmolToolResult A)
    (h1 : r.success = true) (h2 : r.error = "") : ResultInv r := by
  constructor <;> intro h <;> simp_all

theorem resultInv_of_failure {A : Type} (r : SmolToolResult A)
    (h1 : r.success = false) (h2 : r.error ≠ "") : ResultInv r := by
  constructor <;> intro h <;> simp_all

theorem resultInv_viewFile (fs : FS) (path : String) (vr : Option String) :
    ResultInv (FileEditorTool.viewFile fs path vr) := by
  unfold FileEditorTool.viewFile
  cases fs.lookup path with
  | none =>
    exact resultInv_of_failure _ rfl (string_append_ne_empty _ _ (by decide))
  | some content =>
    dsimp only
    cases vr with
    | none => exact resultInv_of_success _ rfl rfl
    | some s =>
      dsimp only
      by_cases hs : s = ""
      · rw [if_pos hs]
        exact resultInv_of_success _ rfl rfl
      · rw [if_neg hs]
        cases FileEditorTool.pyParseViewRange s with
        | none => exact resultInv_of_success _ rfl rfl
        | some p =>
          cases p
          exact resultInv_of_success _ rfl rfl

theorem resultInv_createFile (fs : FS) (path ft : String) :
    ResultInv (FileEditorTool.createFile fs path ft).1 := by
  unfold FileEditorTool.createFile
  cases fs.lookup path with
  | none => exact resultInv_of_success _ rfl rfl
  | some c =>
    exact resultInv_of_failure _ rfl
      (string_append_ne_empty _ _ (string_append_ne_empty _ _ (by decide)))

theorem resultInv_strReplace (st : EditorState) (path o n : String) :
    ResultInv (FileEditorTool.strReplace st path o n).1 := by
  unfold FileEditorTool.strReplace
  cases st.fs.lookup path with
  | none =>
    exact resultInv_of_failure _ rfl (string_append_ne_empty _ _ (by decide))
  | some content =>
    dsimp only
    cases hin : pyIn o content with
    | false =>
      exact resultInv_of_failure _ rfl (string_append_ne_empty _ _ (by decide))
    | true =>
      by_cases hc : pyCount content o > 1
      · rw [if_pos hc]
        exact resultInv_of_failure _ rfl
          (string_append_ne_empty _ _ (string_append_ne_empty _ _ (by decide)))
      · rw [if_neg hc]
        exact resultInv_of_success _ rfl rfl

theorem resultInv_undoEdit (st : EditorState) (path : String) :
    ResultInv (FileEditorTool.undoEdit st path).1 := by
  unfold FileEditorTool.undoEdit
  cases st.fileStates.lookup path with
  | none =>
    exact resultInv_of_failure _ rfl (string_append_ne_empty _ _ (by decide))
  | some stack =>
    dsimp only
    cases he : stack.isEmpty with
    | true =>
      exact resultInv_of_failure _ rfl (string_append_ne_empty _ _ (by decide))
    | false =>
      exact resultInv_of_success _ rfl rfl

theorem resultInv_feExecute (st : EditorState) (command path : String)
    (ft os ns vr : Option String) :
    ResultInv (FileEditorTool.execute st command path ft os ns vr).1 := by
  unfold FileEditorTool.execute
  split_ifs with h1 h2 h3 h4
  · exact resultInv_viewFile _ _ _
  · cases ft with
    | none =>
      exact resultInv_of_failure _ rfl
        ((by decide : ("file_text is required for create command" : String) ≠ ""))
    | some t => exact resultInv_createFile _ _ _
  · cases os with
    | none =>
      cases ns <;>
        exact resultInv_of_failure _ rfl
          ((by decide :
            ("old_str and new_str are required for str_replace command" : String) ≠ ""))
    | some o =>
      cases ns with
      | none =>
        exact resultInv_of_failure _ rfl
          ((by decide :
            ("old_str and new_str are required for str_replace command" : String) ≠ ""))
      | some n => exact resultInv_strReplace _ _ _ _
  · exact resultInv_undoEdit _ _
  · exact resultInv_of_failure _ rfl
      (string_append_ne_empty _ _ (string_append_ne_empty _ _ (by decide)))

theorem resultInv_createPlan (td now : String) (st : PlannerState) :
    ResultInv (PlanningTool.createPlan td now st).1 :=
  resultInv_of_success _ rfl rfl

theorem resultInv_addTask (pid title desc prio : String)
    (et dep : Option String) (now : String) (st : PlannerState) :
    ResultInv (PlanningTool.addTask pid title desc prio et dep now st).1 := by
  unfold PlanningTool.addTask
  cases st.plans.lookup pid with
  | none =>
    exact resultInv_of_failure _ rfl
      (string_append_ne_empty _ _ (string_append_ne_empty _ _ (by decide)))
  | some plan => exact resultInv_of_success _ rfl rfl

theorem resultInv_updateTask (pid tid uc now : String) (st : PlannerState) :
    ResultInv (PlanningTool.updateTask pid tid uc now st).1 := by
  unfold PlanningTool.updateTask
  cases st.plans.lookup pid with
  | none =>
    exact resultInv_of_failure _ rfl
      (string_append_ne_empty _ _ (string_append_ne_empty _ _ (by decide)))
  | some plan =>
    dsimp only
    cases PlanningTool.findTask plan.tasks tid with
    | none =>
      exact resultInv_of_failure _ rfl
        (string_append_ne_empty _ _ (string_append_ne_empty _ _
          (string_append_ne_empty _ _ (by decide))))
    | some task => exact resultInv_of_success _ rfl rfl

theorem resultInv_completeTask (pid tid now : String) (st : PlannerState) :
    ResultInv (PlanningTool.completeTask pid tid now st).1 := by
  unfold PlanningTool.completeTask
  cases st.plans.lookup pid with
  | none =>
    exact resultInv_of_failure _ rfl
      (string_append_ne_empty _ _ (string_append_ne_empty _ _ (by decide)))
  | some plan =>
    dsimp only
    cases PlanningTool.findTask plan.tasks tid with
    | none =>
      exact resultInv_of_failure _ rfl
        (string_append_ne_empty _ _ (string_append_ne_empty _ _
          (string_append_ne_empty _ _ (by decide))))
    | some task =>
      dsimp only
      by_cases hz : plan.progress.total_tasks = 0
      · rw [if_pos hz]
        exact resultInv_of_failure _ rfl
          ((by decide :
            ("Failed to complete task: division by zero" : String) ≠ ""))
      · rw [if_neg hz]
        exact resultInv_of_success _ rfl rfl

theorem resultInv_getPlan (pid : String) (st : PlannerState) :
    ResultInv (PlanningTool.getPlan pid st).1 := by
  unfold PlanningTool.getPlan
  cases st.plans.lookup pid with
  | none =>
    exact resultInv_of_failure _ rfl
      (string_append_ne_empty _ _ (string_append_ne_empty _ _ (by decide)))
  | some plan =>
    dsimp only
    by_cases hz : plan.progress.total_tasks = 0
    · rw [if_pos hz]
      exact resultInv_of_failure _ rfl
        ((by decide : ("Failed to get plan: division by zero" : String) ≠ ""))
    · rw [if_neg hz]
      exact resultInv_of_success _ rfl rfl

theorem resultInv_analyzeTask (td now : String) (st : PlannerState) :
    ResultInv (PlanningTool.analyzeTask td now st).1 :=
  resultInv_of_success _ rfl rfl

theorem resultInv_plExecute (st : PlannerState) (action : String)
    (td pid tid stt sd : Option String) (prio : String)
    (et dep uc : Option String) (now : String) :
    ResultInv (PlanningTool.execute st action td pid tid stt sd prio et dep
      uc now).1 := by
  unfold PlanningTool.execute
  split_ifs
  · exact resultInv_of_failure _ rfl
      ((by decide :
        ("task_description is required for create_plan action" : String) ≠ ""))
  · exact resultInv_createPlan _ _ _
  · exact resultInv_of_failure _ rfl
      ((by decide :
        ("plan_id, subtask_title, and subtask_description are required for add_task action" : String) ≠ ""))
  · exact resultInv_addTask _ _ _ _ _ _ _ _
  · exact resultInv_of_failure _ rfl
      ((by decide :
        ("plan_id, task_id, and update_content are required for update_task action" : String) ≠ ""))
  · exact resultInv_updateTask _ _ _ _ _
  · exact resultInv_of_failure _ rfl
      ((by decide :
        ("plan_id and task_id are required for complete_task action" : String) ≠ ""))
  · exact resultInv_completeTask _ _ _ _
  · exact resultInv_of_failure _ rfl
      ((by decide :
        ("plan_id is required for get_plan action" : String) ≠ ""))
  · exact resultInv_getPlan _ _
  · exact resultInv_of_failure _ rfl
      ((by decide :
        ("task_description is required for analyze_task action" : String) ≠ ""))
  · exact resultInv_analyzeTask _ _ _
  · exact resultInv_of_failure _ rfl (string_append_ne_empty _ _ (by decide))

/-- C5: every envelope returned by the file editor's `execute` and by the
planner's `execute` satisfies the invariant: `success = True` implies the
`error` field is empty, and `success = False` implies the `error` field is
nonempty. -/
theorem c5_envelope_invariant :
    (∀ (st : EditorState) (command path : String)
      (ft os ns vr : Option String),
      ResultInv (FileEditorTool.execute st command path ft os ns vr).1) ∧
    (∀ (st : PlannerState) (action : String)
      (td pid tid stt sd : Option String) (prio : String)
      (et dep uc : Option String) (now : String),
      ResultInv (PlanningTool.execute st action td pid tid stt sd prio et dep
        uc now).1) :=
  ⟨resultInv_feExecute, resultInv_plExecute⟩

theorem c5_envelope_invariant_witness :
    ResultInv (FileEditorTool.execute { fs := [] } "view" "/a" none none none
      none).1 ∧
    ResultInv (PlanningTool.execute {} "get_plan" none (some "plan_1") none
      none none "medium" none none none "T").1 :=
  ⟨c5_envelope_invariant.1 { fs := [] } "view" "/a" none none none none,
   c5_envelope_invariant.2 {} "get_plan" none (some "plan_1") none none none
     "medium" none none none "T"⟩

/-! ### Double completion (C10) -/

theorem findTask_updateFirstTask (tasks : List PTask) (tid : String)
    (f : PTask → PTask) (hf : ∀ t, (f t).id = t.id) :
    PlanningTool.findTask (PlanningTool.updateFirstTask tasks tid f) tid =
      (PlanningTool.findTask tasks tid).map f := by
  induction tasks with
  | nil => rfl
  | cons t rest ih =>
    simp only [PlanningTool.updateFirstTask]
    by_cases h : t.id = tid
    · rw [if_pos h]
      unfold PlanningTool.findTask
      rw [List.find?_cons_of_pos _ (by simp [hf, h]),
          List.find?_cons_of_pos _ (by simp [h])]
      rfl
    · rw [if_neg h]
      unfold PlanningTool.findTask
      rw [List.find?_cons_of_neg _ (by simp [hf, h]),
          List.find?_cons_of_neg _ (by simp [h])]
      exact ih

/-- Characterization of a successful `_complete_task`: the result is
successful and the stored plan is the one with the found task marked
completed and the progress counters updated according to its old status. -/
theorem completeTask_spec (plan_id task_id now : String) (st : PlannerState)
    (plan : Plan) (task : PTask)
    (hplan : st.plans.lookup plan_id = some plan)
    (htask : PlanningTool.findTask plan.tasks task_id = some task)
    (hnz : plan.progress.total_tasks ≠ 0) :
    (PlanningTool.completeTask plan_id task_id now st).1.success = true ∧
    (PlanningTool.completeTask plan_id task_id now st).2 =
      { st with plans := (updateAssoc st.plans plan_id
          (completedPlanUpd plan task_id now task.status)) } := by
  unfold PlanningTool.completeTask
  rw [hplan]
  dsimp only
  rw [htask]
  dsimp only
  rw [if_neg hnz]
  exact ⟨rfl, rfl⟩

/-- C10: completing the same valid task twice succeeds both times; the
second completion increments `completed_tasks` again without decrementing
`pending_tasks` or `in_progress_tasks`, so the counters afterwards sum to
more than `total_tasks`; concretely, repeatedly completing `task_1` of the
web-app plan drives the reported completion rate past 100%
(`116.7% complete` after seven completions of one task out of six). -/
theorem c10_double_complete_overcounts (st : PlannerState)
    (plan_id task_id now1 now2 : String) (plan : Plan) (task : PTask)
    (hplan : st.plans.lookup plan_id = some plan)
    (htask : PlanningTool.findTask plan.tasks task_id = some task)
    (hsum : plan.progress.completed_tasks + plan.progress.in_progress_tasks +
        plan.progress.pending_tasks = plan.progress.total_tasks)
    (hpos : 0 < plan.progress.total_tasks) :
    (PlanningTool.completeTask plan_id task_id now1 st).1.success = true ∧
    (PlanningTool.completeTask plan_id task_id now2
      (PlanningTool.completeTask plan_id task_id now1 st).2).1.success = true ∧
    (∃ plan1 plan2,
      (PlanningTool.completeTask plan_id task_id now1 st).2.plans.lookup
        plan_id = some plan1 ∧
      (PlanningTool.completeTask plan_id task_id now2
        (PlanningTool.completeTask plan_id task_id now1 st).2).2.plans.lookup
        plan_id = some plan2 ∧
      plan2.progress.completed_tasks = plan1.progress.completed_tasks + 1 ∧
      plan2.progress.pending_tasks = plan1.progress.pending_tasks ∧
      plan2.progress.in_progress_tasks = plan1.progress.in_progress_tasks ∧
      plan2.progress.total_tasks = plan.progress.total_tasks ∧
      plan2.progress.total_tasks <
        plan2.progress.completed_tasks + plan2.progress.in_progress_tasks +
          plan2.progress.pending_tasks) ∧
    (pyIn "116.7% complete"
      (PlanningTool.execute
        ((fun s => (PlanningTool.execute s "complete_task" none (some "plan_1")
            (some "task_1") none none "medium" none none none "T").2)^[6]
          (PlanningTool.execute {} "create_plan"
            (some "Build a simple web application") none none none none
            "medium" none none none "T").2)
        "complete_task" none (some "plan_1") (some "task_1") none none
        "medium" none none none "T").1.output = true ∧
     (PlanningTool.execute
        ((fun s => (PlanningTool.execute s "complete_task" none (some "plan_1")
            (some "task_1") none none "medium" none none none "T").2)^[6]
          (PlanningTool.execute {} "create_plan"
            (some "Build a simple web application") none none none none
            "medium" none none none "T").2)
        "complete_task" none (some "plan_1") (some "task_1") none none
        "medium" none none none "T").1.artifacts.lookup "progress" =
       some (.progress { total_tasks := 6, completed_tasks := 7,
                         in_progress_tasks := 0, pending_tasks := 5 }) ∧
     PlanningTool.roundHalfEvenDiv (1000 * 7) 6 = 1167 ∧ (1000 : Int) < 1167) := by
  have hnz : plan.progress.total_tasks ≠ 0 := hpos.ne'
  obtain ⟨hs1, hst1⟩ :=
    completeTask_spec plan_id task_id now1 st plan task hplan htask hnz
  have hplan1 : (PlanningTool.completeTask plan_id task_id now1 st).2.plans.lookup
      plan_id = some (completedPlanUpd plan task_id now1 task.status) := by
    rw [hst1]
    exact lookup_updateAssoc _ _ _
  have htask1 : PlanningTool.findTask
      (completedPlanUpd plan task_id now1 task.status).tasks task_id =
      some (markCompleted now1 task) := by
    show PlanningTool.findTask
        (PlanningTool.updateFirstTask plan.tasks task_id (markCompleted now1))
        task_id = _
    rw [findTask_updateFirstTask plan.tasks task_id (markCompleted now1)
          (fun t => rfl),
        htask]
    rfl
  have hnz1 : (completedPlanUpd plan task_id now1 task.status).progress.total_tasks
      ≠ 0 := hnz
  obtain ⟨hs2, hst2⟩ :=
    completeTask_spec plan_id task_id now2 _ _ _ hplan1 htask1 hnz1
  refine ⟨hs1, hs2,
    ⟨completedPlanUpd plan task_id now1 task.status,
     completedPlanUpd (completedPlanUpd plan task_id now1 task.status) task_id
       now2 (markCompleted now1 task).status,
     hplan1, ?_, rfl, rfl, rfl, rfl, ?_⟩, ?_⟩
  · rw [hst2]
    exact lookup_updateAssoc _ _ _
  · simp only [completedPlanUpd, completeProgress, markCompleted,
      String.reduceEq, reduceIte]
    by_cases hp : task.status = "pending"
    · simp only [hp, String.reduceEq, reduceIte]
      omega
    · rw [if_neg hp]
      by_cases hi : task.status = "in_progress"
      · simp only [hi, String.reduceEq, reduceIte]
        omega
      · rw [if_neg hi]
        omega
  · exact ⟨by decide, by decide, by decide, by decide⟩

theorem c10_double_complete_overcounts_witness :
    webAppPlanState.plans.lookup "plan_1" = some webAppPlan ∧
    PlanningTool.findTask webAppPlan.tasks "task_1" = some webAppFirstTask ∧
    webAppPlan.progress.completed_tasks + webAppPlan.progress.in_progress_tasks +
      webAppPlan.progress.pending_tasks = webAppPlan.progress.total_tasks ∧
    0 < webAppPlan.progress.total_tasks ∧
    ((PlanningTool.completeTask "plan_1" "task_1" "T1" webAppPlanState).1.success
       = true ∧
     (PlanningTool.completeTask "plan_1" "task_1" "T2"
       (PlanningTool.completeTask "plan_1" "task_1" "T1"
         webAppPlanState).2).1.success = true ∧
     (∃ plan1 plan2,
       (PlanningTool.completeTask "plan_1" "task_1" "T1"
         webAppPlanState).2.plans.lookup "plan_1" = some plan1 ∧
       (PlanningTool.completeTask "plan_1" "task_1" "T2"
         (PlanningTool.completeTask "plan_1" "task_1" "T1"
           webAppPlanState).2).2.plans.lookup "plan_1" = some plan2 ∧
       plan2.progress.completed_tasks = plan1.progress.completed_tasks + 1 ∧
       plan2.progress.pending_tasks = plan1.progress.pending_tasks ∧
       plan2.progress.in_progress_tasks = plan1.progress.in_progress_tasks ∧
       plan2.progress.total_tasks = webAppPlan.progress.total_tasks ∧
       plan2.progress.total_tasks <
         plan2.progress.completed_tasks + plan2.progress.in_progress_tasks +
           plan2.progress.pending_tasks) ∧
     (pyIn "116.7% complete"
       (PlanningTool.execute
         ((fun s => (PlanningTool.execute s "complete_task" none (some "plan_1")
             (some "task_1") none none "medium" none none none "T").2)^[6]
           (PlanningTool.execute {} "create_plan"
             (some "Build a simple web application") none none none none
             "medium" none none none "T").2)
         "complete_task" none (some "plan_1") (some "task_1") none none
         "medium" none none none "T").1.output = true ∧
      (PlanningTool.execute
         ((fun s => (PlanningTool.execute s "complete_task" none (some "plan_1")
             (some "task_1") none none "medium" none none none "T").2)^[6]
           (PlanningTool.execute {} "create_plan"
             (some "Build a simple web application") none none none none
             "medium" none none none "T").2)
         "complete_task" none (some "plan_1") (some "task_1") none none
         "medium" none none none "T").1.artifacts.lookup "progress" =
        some (.progress { total_tasks := 6, completed_tasks := 7,
                          in_progress_tasks := 0, pending_tasks := 5 }) ∧
      PlanningTool.roundHalfEvenDiv (1000 * 7) 6 = 1167 ∧ (1000 : Int) < 1167)) :=
  ⟨by decide, by decide, by decide, by decide,
   c10_double_complete_overcounts webAppPlanState "plan_1" "task_1" "T1" "T2"
     webAppPlan webAppFirstTask (by decide) (by decide) (by decide) (by decide)⟩

end SmolagentsTools
